import Mathlib

/-!
Verification of the chatbot repository's smart-query subsystem
(src/services/smartQueryService.js, src/utils/dbRetry.js, the schema-cache
introspector and the chat route's chart conversion) against its
natural-language specification.

JavaScript strings are modelled as `List Char`; the regex-based text
transformations of the source are translated operation by operation.
Line terminators are modelled as the newline character.
-/

namespace Chatbot

/-- The single-quote character `'` (written via its code point). -/
def sq : Char := Char.ofNat 39

/-- The double-quote character `"` (written via its code point). -/
def dq : Char := Char.ofNat 34

/-- JS `String.prototype.toUpperCase` restricted to the characters appearing here. -/
def toUpperL (s : List Char) : List Char := s.map Char.toUpper

/-- JS `String.prototype.toLowerCase` restricted to the characters appearing here. -/
def toLowerL (s : List Char) : List Char := s.map Char.toLower

/-- JS `String.prototype.trim`: drop whitespace from both ends. -/
def trimL (s : List Char) : List Char :=
  ((s.dropWhile Char.isWhitespace).reverse.dropWhile Char.isWhitespace).reverse

/-- Does the first list occur as a leading segment of the second? (JS `startsWith`.) -/
def hasPrefixL : List Char → List Char → Bool
  | [], _ => true
  | _ :: _, [] => false
  | n :: ns, h :: hs => n == h && hasPrefixL ns hs

/-- Does `needle` occur as a contiguous substring of `hay`? (JS `includes`.) -/
def containsSub (needle : List Char) : List Char → Bool
  | [] => hasPrefixL needle []
  | c :: rest => hasPrefixL needle (c :: rest) || containsSub needle rest

/-- Does the character `q` occur in the list? -/
def hasChar (q : Char) : List Char → Bool
  | [] => false
  | c :: rest => c == q || hasChar q rest

/-- Split on newline characters (JS `split('\n')`); always returns at least one line. -/
def splitNL : List Char → List (List Char)
  | [] => [[]]
  | c :: rest =>
    match splitNL rest with
    | [] => [[c]]
    | l :: ls => if c = '\n' then [] :: l :: ls else (c :: l) :: ls

/-- Join lines with newline characters. -/
def joinNL (ls : List (List Char)) : List Char := List.intercalate ['\n'] ls

/-- JS `split('\n').pop()`: the final line. -/
def lastLineOf (s : List Char) : List Char := (splitNL s).getLastD []

/-- One line of the global multiline replacement of `--.*$` by the empty
string: cut from the first `--` to the end of the line. -/
def cutLineAt : List Char → List Char
  | [] => []
  | c :: rest =>
    match rest with
    | [] => [c]
    | d :: rest2 => if c = '-' && d = '-' then [] else c :: cutLineAt (d :: rest2)

/-- The validator's first replacement (the `--.*$` multiline regex): remove
single-line comments from every line. -/
def stripLineComments (s : List Char) : List Char := joinNL ((splitNL s).map cutLineAt)

/-- Scan for the two-character close `*/` and return the remainder after it. -/
def findClose : List Char → Option (List Char)
  | [] => none
  | c :: rest =>
    match rest with
    | [] => none
    | d :: rest2 => if c = '*' && d = '/' then some rest2 else findClose (d :: rest2)

/-- Scan for the character `q` and return the remainder after it. -/
def findQuote (q : Char) : List Char → Option (List Char)
  | [] => none
  | c :: rest => if c = q then some rest else findQuote q rest

/-- The replacement `.replace(/\/\*[\s\S]*?\*\//g, '')` of the validator:
remove each `/* ... */` block (non-greedy); an unterminated `/*` is left in place. -/
def stripBlockCommentsF : Nat → List Char → List Char
  | 0, s => s
  | _ + 1, [] => []
  | _ + 1, [c] => [c]
  | fuel + 1, c :: d :: rest =>
    if c = '/' && d = '*' then
      match findClose rest with
      | some r => stripBlockCommentsF fuel r
      | none => c :: d :: rest
    else c :: stripBlockCommentsF fuel (d :: rest)

/-- The block-comment replacement, run with enough fuel (every step of the
scan consumes at least one character, so the length of the input suffices). -/
def stripBlockComments (s : List Char) : List Char := stripBlockCommentsF s.length s

/-- The replacement `.replace(/'[^']*'/g, '')` (and its double-quote twin):
remove each pair of `q`-quotes together with the characters between them;
an unpaired final quote is left in place. -/
def stripQuotesF (q : Char) : Nat → List Char → List Char
  | 0, s => s
  | _ + 1, [] => []
  | fuel + 1, c :: rest =>
    if c = q then
      match findQuote q rest with
      | some r => stripQuotesF q fuel r
      | none => c :: rest
    else c :: stripQuotesF q fuel rest

/-- The quoted-string replacement, run with enough fuel (every step of the
scan consumes at least one character, so the length of the input suffices). -/
def stripQuotes (q : Char) (s : List Char) : List Char := stripQuotesF q s.length s

/-- The `cleanUpper` value of `executeSQLQuery`: strip single-line comments,
block comments, single-quoted strings and double-quoted strings (in that
order, as the source's chained `.replace` calls do), then trim and uppercase. -/
def cleanOf (s : List Char) : List Char :=
  toUpperL (trimL (stripQuotes dq (stripQuotes sq (stripBlockComments (stripLineComments (trimL s))))))

/-- JS `\w`: ASCII letters, digits and underscore. -/
def isWordChar (c : Char) : Bool := c.isAlphanum || c = '_'

/-- Does the keyword match at the head of `s`, with a word boundary after it? -/
def wordAt (kw s : List Char) : Bool :=
  hasPrefixL kw s &&
    (match s.drop kw.length with
     | [] => true
     | c :: _ => !isWordChar c)

/-- Scan `s` for a whole-word occurrence of `kw` (`prev` is the preceding character). -/
def containsWordAux (kw : List Char) : Option Char → List Char → Bool
  | _, [] => false
  | prev, c :: rest =>
    ((match prev with
      | none => true
      | some p => !isWordChar p) && wordAt kw (c :: rest)) ||
    containsWordAux kw (some c) rest

/-- The regex `\bKW\b` applied to an (uppercase) text. -/
def containsWord (kw s : List Char) : Bool := containsWordAux kw none s

/-- The deny-listed operation keywords of `executeSQLQuery` (`dangerousPatterns`). -/
def denyWords : List (List Char) :=
  ["DROP".data, "DELETE".data, "UPDATE".data, "INSERT".data, "ALTER".data,
   "CREATE".data, "TRUNCATE".data, "EXEC".data, "EXECUTE".data, "GRANT".data,
   "REVOKE".data]

/-- Does any deny-listed keyword occur as a whole word in (the uppercased) `s`? -/
def hasDenyWord (s : List Char) : Bool := denyWords.any (fun kw => containsWord kw s)

/-- The regex `/q[^q]*$/` applied to a line: some `q` is followed only by
non-`q` characters up to the end of the line. -/
def testQuoteEnd (q : Char) : List Char → Bool
  | [] => false
  | c :: rest => (c == q && !hasChar q rest) || testQuoteEnd q rest

/-- After `INTERVAL`: at least one whitespace character, then a single quote
whose remainder contains no further single quote (the `\s+'[^']*$` tail). -/
def wsThenOpenQuote : List Char → Bool
  | [] => false
  | c :: rest =>
    if c.isWhitespace then wsThenOpenQuoteRest rest else false
where
  wsThenOpenQuoteRest : List Char → Bool
    | [] => false
    | c :: rest =>
      if c.isWhitespace then wsThenOpenQuoteRest rest
      else c == sq && !hasChar sq rest

/-- The regex `/INTERVAL\s+'[^']*$/` applied to the whole statement. -/
def hasUnclosedInterval : List Char → Bool
  | [] => false
  | c :: rest =>
    (hasPrefixL ("INTERVAL".data) (c :: rest) &&
      wsThenOpenQuote ((c :: rest).drop ("INTERVAL".data).length)) ||
    hasUnclosedInterval rest

/-- The dangling keyword fragments of the final-line check. -/
def fragKeywords : List (List Char) :=
  ["LEF".data, "RIGH".data, "CURREN".data, "INNE".data, "OUTE".data]

/-- Does the fragment match at the head of `s` followed only by whitespace
(the `\s*$` tail of the fragment regex)? -/
def fragAt (frag s : List Char) : Bool :=
  hasPrefixL frag s && (s.drop frag.length).all Char.isWhitespace

/-- Scan for a word-boundary-preceded fragment that runs to the end of the line. -/
def fragEndAux (prev : Option Char) : List Char → Bool
  | [] => false
  | c :: rest =>
    ((match prev with
      | none => true
      | some p => !isWordChar p) && fragKeywords.any (fun f => fragAt f (c :: rest))) ||
    fragEndAux (some c) rest

/-- The regex `/\b(LEF|RIGH|CURREN|INNE|OUTE)\s*$/i` applied to the final line. -/
def hasIncompleteKw (line : List Char) : Bool := fragEndAux none (toUpperL line)

/-- The final completeness check of `executeSQLQuery`:
`hasUnclosedString || hasUnclosedInterval || hasIncompleteKeyword`. -/
def incompleteCheck (s : List Char) : Bool :=
  testQuoteEnd sq (lastLineOf (trimL s)) || testQuoteEnd dq (lastLineOf (trimL s)) ||
  hasUnclosedInterval (trimL s) || hasIncompleteKw (lastLineOf (trimL s))

/-- The keyword `SELECT`. -/
def selectKW : List Char := ['S', 'E', 'L', 'E', 'C', 'T']

/-- The keyword `WITH`. -/
def withKW : List Char := ['W', 'I', 'T', 'H']

/-- The possible outcomes of `executeSQLQuery`'s validation step:
`noQuery` is the early `return null` on a falsy argument, `rejectedUnsafe` the
safety error, `rejectedNotSelect` the must-start-with-SELECT error,
`rejectedIncomplete` the incomplete-query error, and `execute sql` means `sql`
is handed to `queryWithRetry`. -/
inductive SQLDecision where
  | noQuery
  | rejectedUnsafe
  | rejectedNotSelect
  | rejectedIncomplete
  | execute (sql : List Char)
deriving DecidableEq

/-- The validation step of `executeSQLQuery` (src/services/smartQueryService.js):
empty check, comment/string stripping, deny-list scan, SELECT-prefix check and
the final completeness heuristics, in source order. -/
def executeSQLQuery (sqlQuery : List Char) : SQLDecision :=
  if sqlQuery = [] then SQLDecision.noQuery
  else if hasDenyWord (cleanOf sqlQuery) then SQLDecision.rejectedUnsafe
  else if !hasPrefixL selectKW (cleanOf sqlQuery) then SQLDecision.rejectedNotSelect
  else if incompleteCheck sqlQuery then SQLDecision.rejectedIncomplete
  else SQLDecision.execute sqlQuery

/-- Skip to the next newline, keeping it (a `--` comment ends at the line end). -/
def dropLineRest : List Char → List Char
  | [] => []
  | c :: rest => if c = '\n' then c :: rest else dropLineRest rest

/-- Modelled from the spec's notion of keyword position: a left-to-right SQL
lexer that removes single-quoted literals, double-quoted literals, `--` line
comments and `/* */` block comments, so that a character survives exactly when
it stands outside every quoted literal and comment. Used only to state what
the specification says; the code's own stripping is `cleanOf`. -/
def specStripF : Nat → List Char → List Char
  | 0, s => s
  | _ + 1, [] => []
  | _ + 1, [c] => if c = sq || c = dq then [] else [c]
  | fuel + 1, c :: d :: rest =>
    if c = sq then
      match findQuote sq (d :: rest) with
      | some r => specStripF fuel r
      | none => []
    else if c = dq then
      match findQuote dq (d :: rest) with
      | some r => specStripF fuel r
      | none => []
    else if c = '-' && d = '-' then
      specStripF fuel (dropLineRest rest)
    else if c = '/' && d = '*' then
      match findClose rest with
      | some r => specStripF fuel r
      | none => []
    else c :: specStripF fuel (d :: rest)

/-- The specification-level stripping, run with enough fuel (every step of the
scan consumes at least one character, so the length of the input suffices). -/
def specStrip (s : List Char) : List Char := specStripF s.length s

end Chatbot

namespace Chatbot

/-- A column of an introspected table (name and SQL type, as the schema cache stores them). -/
structure Column where
  name : List Char
  type : List Char
deriving DecidableEq

/-- A table of the cached schema snapshot used by the pattern generators. -/
structure Table where
  name : List Char
  rowCount : Nat
  columns : List Column
deriving DecidableEq

/-- The cached schema object consumed by `detectOrderTable` (its `tables` list). -/
structure Schema where
  tables : List Table
deriving DecidableEq

/-- The record returned by `detectOrderTable`. -/
structure OrderInfo where
  tableName : List Char
  rowCount : Nat
  columns : List Column
deriving DecidableEq

/-- The filter of `detectOrderTable`: tables whose lowercased name contains
`order`, `delivery` or `invoice`. -/
def orderFilterPred (t : Table) : Bool :=
  containsSub ("order".data) (toLowerL t.name) ||
  containsSub ("delivery".data) (toLowerL t.name) ||
  containsSub ("invoice".data) (toLowerL t.name)

/-- The preference of `detectOrderTable`: a table whose lowercased name is
exactly `deliveryorders` or `delivery_orders`. -/
def delivPred (t : Table) : Bool :=
  toLowerL t.name == ("deliveryorders".data) || toLowerL t.name == ("delivery_orders".data)

/-- `detectOrderTable` of src/services/smartQueryService.js; the cached schema
(`getSchema(true)`) is passed in as an argument, `none` standing for a missing
or table-less schema. -/
def detectOrderTable (os : Option Schema) : Option OrderInfo :=
  match os with
  | none => none
  | some schema =>
    match (schema.tables.filter orderFilterPred).find? delivPred with
    | some t => some ⟨t.name, t.rowCount, t.columns⟩
    | none =>
      match schema.tables.filter orderFilterPred with
      | [] => none
      | t :: _ => some ⟨t.name, t.rowCount, t.columns⟩

/-- The candidate date-column names of `detectDateColumn`. -/
def dateColumnNames : List (List Char) :=
  ["created_at".data, "createdat".data, "created".data, "order_date".data,
   "date".data, "timestamp".data, "createdon".data]

/-- The per-candidate-name predicate of `detectDateColumn`'s loop: exact
lowercased match, or a name containing `created` or `date`. -/
def dateNamePred (colName : List Char) (c : Column) : Bool :=
  toLowerL c.name == toLowerL colName ||
  containsSub ("created".data) (toLowerL c.name) ||
  containsSub ("date".data) (toLowerL c.name)

/-- The `for (const colName of dateColumnNames)` loop of `detectDateColumn`. -/
def findDateByName : List (List Char) → List Column → Option Column
  | [], _ => none
  | n :: ns, cols =>
    match cols.find? (dateNamePred n) with
    | some c => some c
    | none => findDateByName ns cols

/-- The type-based fallback of `detectDateColumn`: a column whose type mentions
`timestamp`, `date` or `time`. -/
def dateTypePred (c : Column) : Bool :=
  containsSub ("timestamp".data) c.type ||
  containsSub ("date".data) c.type ||
  containsSub ("time".data) c.type

/-- `detectDateColumn` of src/services/smartQueryService.js. -/
def detectDateColumn (columns : List Column) : Option (List Char) :=
  if columns.length = 0 then none
  else
    match findDateByName dateColumnNames columns with
    | some c => some c.name
    | none => (columns.find? dateTypePred).map Column.name

/-- Decimal rendering of a number interpolated into a template literal. -/
def natStr (n : Nat) : List Char := (Nat.repr n).data

/-- A double-quoted identifier, as the templates interpolate them. -/
def qid (name : List Char) : List Char := dq :: (name ++ [dq])

/-- The template literal returned by `generateSmartGroupedByMonthSQL`. -/
def monthSQLTemplate (tableName dateCol : List Char) : List Char :=
  ("SELECT EXTRACT(YEAR FROM ").data ++ qid dateCol ++ (") as year, EXTRACT(MONTH FROM ").data ++
  qid dateCol ++ (") as month, COUNT(*) as ordercount FROM ").data ++ qid tableName ++
  (" GROUP BY EXTRACT(YEAR FROM ").data ++ qid dateCol ++ ("), EXTRACT(MONTH FROM ").data ++
  qid dateCol ++ (") ORDER BY year, month").data

/-- `generateSmartGroupedByMonthSQL` of src/services/smartQueryService.js:
detect the order table and its date column and emit the grouped-by-month
statement; it performs no call to the text-generation service. -/
def generateSmartGroupedByMonthSQL (os : Option Schema) : Option (List Char) :=
  match detectOrderTable os with
  | none => none
  | some orderTable =>
    match detectDateColumn orderTable.columns with
    | none => none
    | some dateColumn => some (monthSQLTemplate orderTable.tableName dateColumn)

/-- The status / state column predicate of `generateOrdersByStatusSQL`. -/
def statusColPred (c : Column) : Bool :=
  containsSub ("status".data) (toLowerL c.name) || containsSub ("state".data) (toLowerL c.name)

/-- The revenue column predicate of `generateOrdersByStatusSQL`. -/
def revenueColPred (c : Column) : Bool :=
  containsSub ("total".data) (toLowerL c.name) || containsSub ("amount".data) (toLowerL c.name) ||
  containsSub ("grandtotal".data) (toLowerL c.name) || containsSub ("revenue".data) (toLowerL c.name)

/-- JS template interpolation of a possibly-null name: `null` becomes the four
characters `null`. -/
def jsInterp : Option (List Char) → List Char
  | some s => s
  | none => "null".data

/-- The template literal returned by `generateOrdersByStatusSQL`. -/
def statusSQLTemplate (statusCol revenueCol tableName : List Char)
    (dateCol : Option (List Char)) (currentYear currentMonth : Nat) : List Char :=
  ("SELECT ").data ++ qid statusCol ++ (" as status, COUNT(*) as ordercount, COALESCE(SUM(").data ++
  qid revenueCol ++ ("), 0) as totalrevenue FROM ").data ++ qid tableName ++
  (" WHERE EXTRACT(YEAR FROM ").data ++ qid (jsInterp dateCol) ++ (") = ").data ++ natStr currentYear ++
  (" AND EXTRACT(MONTH FROM ").data ++ qid (jsInterp dateCol) ++ (") = ").data ++ natStr currentMonth ++
  (" GROUP BY ").data ++ qid statusCol ++ (" ORDER BY ordercount DESC").data

/-- `generateOrdersByStatusSQL` of src/services/smartQueryService.js. Note
that `dateColumn` is interpolated but never null-checked: only the status and
revenue columns guard the emission. The current year and month (taken from
`new Date()` in the source) are parameters. -/
def generateOrdersByStatusSQL (os : Option Schema) (currentYear currentMonth : Nat) :
    Option (List Char) :=
  match detectOrderTable os with
  | none => none
  | some orderTable =>
    match orderTable.columns.find? statusColPred, orderTable.columns.find? revenueColPred with
    | some statusColumn, some revenueColumn =>
      some (statusSQLTemplate statusColumn.name revenueColumn.name orderTable.tableName
        (detectDateColumn orderTable.columns) currentYear currentMonth)
    | _, _ => none

/-- The account / customer column predicate of `generateRevenuePerCustomerSQL`. -/
def accountColPred (c : Column) : Bool :=
  containsSub ("account".data) (toLowerL c.name) || containsSub ("customer".data) (toLowerL c.name)

/-- The revenue column predicate of `generateRevenuePerCustomerSQL`
(no `revenue` alternative here, unlike the status template). -/
def revenueColPred2 (c : Column) : Bool :=
  containsSub ("total".data) (toLowerL c.name) || containsSub ("amount".data) (toLowerL c.name) ||
  containsSub ("grandtotal".data) (toLowerL c.name)

/-- The template literal returned by `generateRevenuePerCustomerSQL`. -/
def revenueSQLTemplate (accountCol revenueCol tableName : List Char) (minOrders : Nat) : List Char :=
  ("SELECT ").data ++ qid accountCol ++ (" as accountid, COUNT(*) as ordercount, COALESCE(SUM(").data ++
  qid revenueCol ++ ("), 0) as totalrevenue FROM ").data ++ qid tableName ++
  (" GROUP BY ").data ++ qid accountCol ++ (" HAVING COUNT(*) > ").data ++ natStr minOrders ++
  (" ORDER BY totalrevenue DESC").data

/-- `generateRevenuePerCustomerSQL` of src/services/smartQueryService.js. -/
def generateRevenuePerCustomerSQL (os : Option Schema) (minOrders : Nat) : Option (List Char) :=
  match detectOrderTable os with
  | none => none
  | some orderTable =>
    match orderTable.columns.find? accountColPred, orderTable.columns.find? revenueColPred2 with
    | some accountColumn, some revenueColumn =>
      some (revenueSQLTemplate accountColumn.name revenueColumn.name orderTable.tableName minOrders)
    | _, _ => none

/-- The template literal returned by `generateMonthOverMonthGrowthSQL`
(a `WITH` common-table-expression query, copied line for line). -/
def momSQLTemplate (tableName dateCol : List Char) (months : Nat) : List Char :=
  ("WITH monthly_orders AS (\n    SELECT \n      EXTRACT(YEAR FROM ").data ++ qid dateCol ++
  (") as year,\n      EXTRACT(MONTH FROM ").data ++ qid dateCol ++
  (") as month,\n      COUNT(*) as ordercount\n    FROM ").data ++ qid tableName ++
  ("\n    WHERE ").data ++ qid dateCol ++ (" >= CURRENT_DATE - INTERVAL '").data ++ natStr months ++
  (" months'\n    GROUP BY EXTRACT(YEAR FROM ").data ++ qid dateCol ++
  ("), EXTRACT(MONTH FROM ").data ++ qid dateCol ++
  (")\n  ),\n  with_previous AS (\n    SELECT \n      year,\n      month,\n      ordercount,\n      LAG(ordercount) OVER (ORDER BY year, month) as previous_count\n    FROM monthly_orders\n  )\n  SELECT \n    year,\n    month,\n    ordercount,\n    previous_count,\n    CASE \n      WHEN previous_count > 0 THEN \n        ROUND(((ordercount - previous_count)::numeric / previous_count * 100)::numeric, 2)\n      ELSE NULL\n    END as growth_rate_percent\n  FROM with_previous\n  ORDER BY year, month").data

/-- `generateMonthOverMonthGrowthSQL` of src/services/smartQueryService.js. -/
def generateMonthOverMonthGrowthSQL (os : Option Schema) (months : Nat) : Option (List Char) :=
  match detectOrderTable os with
  | none => none
  | some orderTable =>
    match detectDateColumn orderTable.columns with
    | none => none
    | some dateColumn => some (momSQLTemplate orderTable.tableName dateColumn months)

/-- The exact-name lookup of `generateOrdersWithHighQuantitySQL` for the order table. -/
def hqOrderTablePred (t : Table) : Bool :=
  toLowerL t.name == ("deliveryorders".data) || toLowerL t.name == ("delivery_orders".data)

/-- The exact-name lookup of `generateOrdersWithHighQuantitySQL` for the detail table. -/
def hqDetailTablePred (t : Table) : Bool :=
  toLowerL t.name == ("deliveryorderdetails".data) || toLowerL t.name == ("delivery_order_details".data)

/-- The template literal returned by `generateOrdersWithHighQuantitySQL`. -/
def hqSQLTemplate (orderId accountCol revenueCol qtyCol orderTable detailTable detailOrderId : List Char)
    (minQuantity : Nat) : List Char :=
  ("SELECT DISTINCT \n    do.").data ++ qid orderId ++ (" as orderid,\n    do.").data ++
  qid accountCol ++ (" as accountid,\n    do.").data ++ qid revenueCol ++
  (" as totalordervalue,\n    MAX(dod.").data ++ qid qtyCol ++
  (") as maxquantity\n  FROM ").data ++ qid orderTable ++ (" do\n  JOIN ").data ++ qid detailTable ++
  (" dod ON do.").data ++ qid orderId ++ (" = dod.").data ++ qid detailOrderId ++
  ("\n  WHERE dod.").data ++ qid qtyCol ++ (" > ").data ++ natStr minQuantity ++
  ("\n  GROUP BY do.").data ++ qid orderId ++ (", do.").data ++ qid accountCol ++
  (", do.").data ++ qid revenueCol ++ ("\n  ORDER BY totalordervalue DESC").data

/-- `generateOrdersWithHighQuantitySQL` of src/services/smartQueryService.js. -/
def generateOrdersWithHighQuantitySQL (os : Option Schema) (minQuantity : Nat) : Option (List Char) :=
  match os with
  | none => none
  | some schema =>
    match schema.tables.find? hqOrderTablePred, schema.tables.find? hqDetailTablePred with
    | some orderTable, some detailTable =>
      match orderTable.columns.find? (fun c => containsSub ("account".data) (toLowerL c.name)),
            orderTable.columns.find? (fun c => containsSub ("total".data) (toLowerL c.name) ||
              containsSub ("grandtotal".data) (toLowerL c.name)),
            detailTable.columns.find? (fun c => containsSub ("quantity".data) (toLowerL c.name) ||
              containsSub ("qty".data) (toLowerL c.name)),
            orderTable.columns.find? (fun c => toLowerL c.name == ("id".data)),
            detailTable.columns.find? (fun c => containsSub ("deliveryorderid".data) (toLowerL c.name) ||
              containsSub ("orderid".data) (toLowerL c.name)) with
      | some accountColumn, some revenueColumn, some quantityColumn, some orderIdColumn,
        some detailOrderIdColumn =>
        some (hqSQLTemplate orderIdColumn.name accountColumn.name revenueColumn.name
          quantityColumn.name orderTable.name detailTable.name detailOrderIdColumn.name minQuantity)
      | _, _, _, _, _ => none
    | _, _ => none

/-- JS `params.x || default`: `undefined` and `0` both fall back to the default. -/
def jsOrDefault (p : Option Nat) (d : Nat) : Nat :=
  match p with
  | some n => if n = 0 then d else n
  | none => d

/-- The SQL that `executeSmartQuery` of src/services/smartQueryService.js hands
to `queryWithRetry` for a given pattern name (`none` when the pattern is
unknown or its generator yields null, in which case nothing is executed).
`executeSmartQuery` passes this SQL to the retry layer directly, without
running it through `executeSQLQuery`. -/
def executeSmartQueryPlan (os : Option Schema) (currentYear currentMonth : Nat)
    (queryPattern : List Char) (minOrders months minQuantity : Option Nat) : Option (List Char) :=
  if queryPattern == ("orders_grouped_by_month".data) then
    generateSmartGroupedByMonthSQL os
  else if queryPattern == ("orders_by_status".data) then
    generateOrdersByStatusSQL os currentYear currentMonth
  else if queryPattern == ("revenue_per_customer".data) then
    generateRevenuePerCustomerSQL os (jsOrDefault minOrders 5)
  else if queryPattern == ("month_over_month_growth".data) then
    generateMonthOverMonthGrowthSQL os (jsOrDefault months 6)
  else if queryPattern == ("orders_with_high_quantity".data) then
    generateOrdersWithHighQuantitySQL os (jsOrDefault minQuantity 10)
  else none

end Chatbot

namespace Chatbot

/-- A JS error as `executeWithRetry` inspects it: an optional `code` and a message. -/
structure JsError where
  code : Option (List Char)
  msg : List Char
deriving DecidableEq

/-- The transient-error classification of `executeWithRetry`
(src/utils/dbRetry.js): the listed network codes, or a message mentioning a
terminated or closed connection or a timeout. -/
def isRetryable (e : JsError) : Bool :=
  e.code == some ("ETIMEDOUT".data) ||
  e.code == some ("EHOSTUNREACH".data) ||
  e.code == some ("ECONNREFUSED".data) ||
  e.code == some ("ECONNRESET".data) ||
  e.code == some ("ENOTFOUND".data) ||
  containsSub ("Connection terminated".data) e.msg ||
  containsSub ("Connection closed".data) e.msg ||
  containsSub ("timeout".data) e.msg

/-- The backoff delay computed before a retry (src/utils/dbRetry.js):
`min(retryDelay * 2^(attempt-1) + jitter, 10000)`; the random jitter
(`Math.random() * 200`) is a parameter. -/
def backoffDelay (retryDelay attemptNum jitter : Nat) : Nat :=
  min (retryDelay * 2 ^ (attemptNum - 1) + jitter) 10000

/-- The loop of `executeWithRetry`, indexed by the current attempt number `k`
and the number of attempts still allowed. An exhausted budget without a single
attempt (only possible for `maxRetries < 1`) models the `throw lastError` with
an undefined error. -/
def retryGo (attempt : Nat → Except JsError Nat) (k : Nat) : Nat → Except JsError Nat × Nat
  | 0 => (Except.error ⟨none, []⟩, 0)
  | rem + 1 =>
    match attempt k with
    | Except.ok v => (Except.ok v, k)
    | Except.error e =>
      if isRetryable e then
        if rem = 0 then (Except.error e, k)
        else retryGo attempt (k + 1) rem
      else (Except.error e, k)

/-- `executeWithRetry` of src/utils/dbRetry.js over a pure attempt oracle:
returns the propagated result together with the number of the attempt that
produced it (attempts are numbered from 1, as in the source's `for` loop). -/
def executeWithRetry (attempt : Nat → Except JsError Nat) (maxRetries : Nat) :
    Except JsError Nat × Nat :=
  retryGo attempt 1 maxRetries

/-- Introspection payload for one table (row count and columns), as
`getCompleteSchema` records it on success. -/
structure TableIntro where
  rowCount : Nat
  columns : List Column
deriving DecidableEq

/-- One entry of the snapshot's `tables` array: on failure the table is kept
with zero rows, an empty column list and the error message. -/
structure SchemaTableEntry where
  name : List Char
  rowCount : Nat
  columns : List Column
  error : Option (List Char)
deriving DecidableEq

/-- The snapshot produced by `getCompleteSchema`. -/
structure SchemaSnapshot where
  totalTables : Nat
  tables : List SchemaTableEntry
deriving DecidableEq

/-- One iteration of `getCompleteSchema`'s per-table loop: a successful
introspection is recorded in full, a failing one is caught and recorded with
an `error` marker and an empty column list. -/
def introspectEntry (introspect : List Char → Except (List Char) TableIntro)
    (nm : List Char) : SchemaTableEntry :=
  match introspect nm with
  | Except.ok info => ⟨nm, info.rowCount, info.columns, none⟩
  | Except.error msg => ⟨nm, 0, [], some msg⟩

/-- `getCompleteSchema` of the schema cache (src/unnamed/part_009): the
catalog listing and the per-table introspection (which may fail per table) are
parameters; `totalTables` is set from the catalog listing before any table is
processed. -/
def getCompleteSchema (catalog : List (List Char))
    (introspect : List Char → Except (List Char) TableIntro) : SchemaSnapshot :=
  if catalog.length = 0 then ⟨0, []⟩
  else ⟨catalog.length, catalog.map (introspectEntry introspect)⟩

/-- A value read from a result-row cell, as the chart conversion of the chat
route (src/unnamed/part_012) sees it: a (non-NaN) number, the number NaN, or a
string. -/
inductive CellVal where
  | num (x : Int)
  | nanv
  | str (s : List Char)
deriving DecidableEq

/-- A produced chart tuple. -/
structure ChartRow where
  name : List Char
  value : Int
deriving DecidableEq

/-- The `parseFloat(rawValue) || parseInt(rawValue) || 0` chain for a string
cell; the two parsers are parameters (`none` models NaN). -/
def jsParseChain (parseF parseI : List Char → Option Int) (s : List Char) : Int :=
  match parseF s with
  | some v => if v = 0 then (match parseI s with | some w => w | none => 0) else v
  | none =>
    match parseI s with
    | some w => if w = 0 then 0 else w
    | none => 0

/-- The `value` computed for a cell: a number cell is taken as is (NaN stays
NaN, modelled as `none`), a string cell goes through the parse chain. -/
def jsToValue (parseF parseI : List Char → Option Int) : CellVal → Option Int
  | CellVal.num x => some x
  | CellVal.nanv => none
  | CellVal.str s => some (jsParseChain parseF parseI s)

/-- The `Item (idx+1)` fallback label. -/
def itemLabel (idx : Nat) : List Char := ("Item ").data ++ natStr (idx + 1)

/-- The `name` computed for a row: the name cell if truthy, else the fallback
label, then trimmed (`String(row[nameCol] || ...).trim()`). -/
def deriveName (nameVal : Option (List Char)) (idx : Nat) : List Char :=
  trimL (match nameVal with
    | some s => if s = [] then itemLabel idx else s
    | none => itemLabel idx)

/-- The truncation applied to a chart name: over 30 characters become the
first 27 followed by three dots. -/
def truncName (nm : List Char) : List Char :=
  if nm.length > 30 then nm.take 27 ++ ("...").data else nm

/-- One row of the chart `map` of the chat route: produce `{name, value}` with
`Math.abs` applied to the value, or `null` (here `none`) when the name is
falsy or the value is NaN. -/
def mkChartRow (parseF parseI : List Char → Option Int) (nameVal : Option (List Char))
    (idx : Nat) (raw : CellVal) : Option ChartRow :=
  match jsToValue parseF parseI raw with
  | none => none
  | some v =>
    if deriveName nameVal idx = [] then none
    else some ⟨truncName (deriveName nameVal idx), |v|⟩

end Chatbot

namespace Chatbot

/-- Inversion of the validator: a statement that reaches execution is the
original argument and has passed the empty check, the deny-list scan, the
SELECT-prefix check and the completeness check. -/
theorem executeSQLQuery_execute_inv {s t : List Char}
    (h : executeSQLQuery s = SQLDecision.execute t) :
    t = s ∧ hasDenyWord (cleanOf s) = false ∧ hasPrefixL selectKW (cleanOf s) = true ∧
      incompleteCheck s = false := by
  unfold executeSQLQuery at h
  split_ifs at h with h1 h2 h3 h4
  cases h
  exact ⟨rfl, by simpa using h2, by simpa using h3, by simpa using h4⟩

/-- A text that starts with `WITH` does not start with `SELECT`. -/
theorem with_not_select {t : List Char} (h : hasPrefixL withKW t = true) :
    hasPrefixL selectKW t = false := by
  cases t with
  | nil => simp [withKW, hasPrefixL] at h
  | cons c rest =>
    simp only [withKW, hasPrefixL, Bool.and_eq_true, beq_iff_eq] at h
    obtain ⟨hc, -⟩ := h
    subst hc
    have hne : ('S' == 'W') = false := by decide
    simp [selectKW, hasPrefixL, hne]

/-- Scenario D of the specification. -/
def scenarioD : List Char := ("DROP TABLE users; -- DELETE everything").data

/-- A statement whose deny-listed keyword `DROP` stands outside every quoted
literal and comment (the `--` of its literal is not a comment opener in SQL),
yet which the validator executes: the comment regex is applied before the
string regexes, so it swallows the keyword. -/
def c1ex : List Char := ("SELECT 'a -- b' DROP TABLE x\nFROM t").data

set_option maxRecDepth 100000

/-- C1 counterexample: `c1ex` contains the deny-listed keyword `DROP` as a
whole word outside any quoted literal or comment (witnessed by the
specification-level stripping), yet the validation step of `executeSQLQuery`
does not reject it — the statement is handed to execution. -/
theorem c1_counterexample :
    hasDenyWord (toUpperL (specStrip c1ex)) = true ∧
    executeSQLQuery c1ex = SQLDecision.execute c1ex ∧
    executeSQLQuery c1ex ≠ SQLDecision.rejectedUnsafe := by
  refine ⟨by decide, by decide, by decide⟩

/-- C1 amended: for every input whose text after the code's own sequential
regex stripping (line comments, block comments, single- then double-quoted
strings) still contains a deny-listed keyword as a whole word, the validator
returns the safety rejection; in particular Scenario D is rejected. -/
theorem c1_denylist_rejects :
    (∀ s : List Char, hasDenyWord (cleanOf s) = true →
      executeSQLQuery s = SQLDecision.rejectedUnsafe) ∧
    executeSQLQuery scenarioD = SQLDecision.rejectedUnsafe := by
  constructor
  · intro s h
    by_cases hs : s = []
    · subst hs
      exact absurd h (by decide)
    · unfold executeSQLQuery
      rw [if_neg hs, if_pos h]
  · decide

/-- C1 witness: the amended theorem applied to Scenario D. -/
theorem c1_denylist_rejects_witness :
    hasDenyWord (cleanOf scenarioD) = true ∧
    executeSQLQuery scenarioD = SQLDecision.rejectedUnsafe :=
  ⟨by decide, c1_denylist_rejects.1 scenarioD (by decide)⟩

/-- A statement whose only deny-listed keyword lies inside a double-quoted
literal (per the specification-level stripping), yet which the validator
rejects as unsafe: the single-quote regex pairs quotes across the
double-quoted literal's boundaries and exposes the keyword. -/
def c2ex : List Char := ("SELECT 'p' \"x DROP y' q\" 'r' FROM t").data

/-- C2 counterexample: `c2ex` contains a deny-listed keyword only inside a
quoted literal (the specification-level stripping removes it), yet the
validator does not accept the statement — it returns the safety rejection, so
the keyword is mistaken for an operation. -/
theorem c2_counterexample :
    hasDenyWord (toUpperL c2ex) = true ∧
    hasDenyWord (toUpperL (specStrip c2ex)) = false ∧
    executeSQLQuery c2ex = SQLDecision.rejectedUnsafe := by
  refine ⟨by decide, by decide, by decide⟩

/-- C2 amended: whenever the code's own stripping leaves no deny-listed
keyword (as a whole word) in the statement, the validator never returns the
safety rejection — the keyword-bearing literals and comments it recognises are
inert; the statement may still be rejected by the SELECT-prefix or
completeness checks. -/
theorem c2_inert_keywords :
    ∀ s : List Char, hasDenyWord (cleanOf s) = false →
      executeSQLQuery s ≠ SQLDecision.rejectedUnsafe := by
  intro s h hcontra
  unfold executeSQLQuery at hcontra
  split_ifs at hcontra with h1 h2 h3 h4; simp_all

/-- C2 witness: a column named `update_count` does not trigger the deny list. -/
def c2w : List Char := ("SELECT update_count FROM t").data

/-- C2 witness theorem: the amended theorem applied to `c2w`. -/
theorem c2_inert_keywords_witness :
    hasDenyWord (cleanOf c2w) = false ∧
    executeSQLQuery c2w ≠ SQLDecision.rejectedUnsafe :=
  ⟨by decide, c2_inert_keywords c2w (by decide)⟩

/-- C3: the validator accepts only statements whose stripped text starts with
`SELECT` (hence with `SELECT` or `WITH`), and a statement whose stripped text
starts with `WITH` is rejected rather than executed. -/
theorem c3_select_start_required :
    ∀ s : List Char,
      (executeSQLQuery s = SQLDecision.execute s →
        hasPrefixL selectKW (cleanOf s) = true ∨ hasPrefixL withKW (cleanOf s) = true) ∧
      (hasPrefixL withKW (cleanOf s) = true →
        executeSQLQuery s ≠ SQLDecision.execute s) := by
  intro s
  constructor
  · intro h
    exact Or.inl (executeSQLQuery_execute_inv h).2.2.1
  · intro hw hcontra
    have hsel := (executeSQLQuery_execute_inv hcontra).2.2.1
    rw [with_not_select hw] at hsel
    simp at hsel

/-- A common-table-expression query, the form the spec says is accepted. -/
def withQuery : List Char := ("WITH t AS (SELECT 1) SELECT * FROM t").data

/-- C3 witness: the theorem applied to a concrete `WITH` query. -/
theorem c3_select_start_required_witness :
    hasPrefixL withKW (cleanOf withQuery) = true ∧
    executeSQLQuery withQuery ≠ SQLDecision.execute withQuery :=
  ⟨by decide, (c3_select_start_required withQuery).2 (by decide)⟩

/-- A statement with a stray unmatched opening parenthesis that the validator
nevertheless hands to execution. -/
def c4ex : List Char := ("SELECT ( FROM t").data

/-- C4 counterexample: `c4ex` passes validation and reaches execution although
its counts of opening and closing parentheses differ. -/
theorem c4_counterexample :
    executeSQLQuery c4ex = SQLDecision.execute c4ex ∧
    c4ex.count '(' ≠ c4ex.count ')' := by
  refine ⟨by decide, by decide⟩

/-- If the final-line quote regex does not fire, the line has no such quote. -/
theorem testQuoteEnd_false {q : Char} {l : List Char} (h : testQuoteEnd q l = false) :
    hasChar q l = false := by
  induction l with
  | nil => simp [hasChar]
  | cons c rest ih =>
    simp only [testQuoteEnd, Bool.or_eq_false_iff] at h
    obtain ⟨h1, h2⟩ := h
    have h3 := ih h2
    rw [h3] at h1
    simp only [hasChar, Bool.or_eq_false_iff]
    exact ⟨by simpa using h1, h3⟩

/-- C4 amended: what the completeness check really enforces — every statement
that reaches execution has a final line free of single and double quotes, no
unclosed `INTERVAL` literal, and no dangling keyword fragment on its final
line; parenthesis balance and whole-statement quote parity are not checked. -/
theorem c4_completeness_amended :
    ∀ s : List Char, executeSQLQuery s = SQLDecision.execute s →
      hasChar sq (lastLineOf (trimL s)) = false ∧
      hasChar dq (lastLineOf (trimL s)) = false ∧
      hasUnclosedInterval (trimL s) = false ∧
      hasIncompleteKw (lastLineOf (trimL s)) = false := by
  intro s h
  have hinc := (executeSQLQuery_execute_inv h).2.2.2
  unfold incompleteCheck at hinc
  rw [Bool.or_eq_false_iff] at hinc
  obtain ⟨habc, hk⟩ := hinc
  rw [Bool.or_eq_false_iff] at habc
  obtain ⟨hab, hi⟩ := habc
  rw [Bool.or_eq_false_iff] at hab
  obtain ⟨hq1, hq2⟩ := hab
  exact ⟨testQuoteEnd_false hq1, testQuoteEnd_false hq2, hi, hk⟩

/-- An accepted statement used to witness the amended completeness property. -/
def c4w : List Char := ("SELECT x FROM t").data

/-- C4 witness: the amended theorem applied to an accepted statement. -/
theorem c4_completeness_amended_witness :
    executeSQLQuery c4w = SQLDecision.execute c4w ∧
    hasChar sq (lastLineOf (trimL c4w)) = false :=
  ⟨by decide, (c4_completeness_amended c4w (by decide)).1⟩

end Chatbot

namespace Chatbot

set_option maxRecDepth 400000

/-- A schema with a `delivery_orders` table carrying `created_at`, as in
Scenario A of the specification. -/
def cs5 : Schema :=
  ⟨[⟨("delivery_orders").data, 5, [⟨("created_at").data, ("timestamp").data⟩]⟩]⟩

/-- The SQL that `executeSmartQuery` hands to the retry layer for the
month-over-month pattern over `cs5`. -/
def momPlanSQL : List Char :=
  (executeSmartQueryPlan (some cs5) 2025 1 (("month_over_month_growth").data)
    none none none).getD []

/-- C5 counterexample: the pattern-fallback path hands `momPlanSQL` to the
retry layer (it is the value passed to `queryWithRetry`), yet that statement
fails the safety validator — `executeSQLQuery` rejects it because the stripped
text starts with `WITH`, not `SELECT`. A statement that fails validation is
nevertheless executed by this subsystem. -/
theorem c5_counterexample :
    executeSmartQueryPlan (some cs5) 2025 1 (("month_over_month_growth").data)
      none none none = some momPlanSQL ∧
    executeSQLQuery momPlanSQL = SQLDecision.rejectedNotSelect ∧
    executeSQLQuery momPlanSQL ≠ SQLDecision.execute momPlanSQL := by
  refine ⟨by decide, by decide, by decide⟩

/-- C5 amended: the guarantee holds for the synthesis path only — every
statement that `executeSQLQuery` passes to execution has gone through the full
validation (deny list, SELECT prefix, completeness); the pattern-fallback path
`executeSmartQuery` does not validate (see the counterexample). -/
theorem c5_validated_execution :
    ∀ s t : List Char, executeSQLQuery s = SQLDecision.execute t →
      t = s ∧ hasDenyWord (cleanOf s) = false ∧ hasPrefixL selectKW (cleanOf s) = true ∧
        incompleteCheck s = false := by
  intro s t h
  exact executeSQLQuery_execute_inv h

/-- A concrete accepted statement for the C5 witness. -/
def c5w : List Char := ("SELECT 1").data

/-- C5 witness: the amended theorem applied to an accepted statement. -/
theorem c5_validated_execution_witness :
    hasDenyWord (cleanOf c5w) = false ∧ hasPrefixL selectKW (cleanOf c5w) = true := by
  have h := c5_validated_execution c5w c5w (by decide)
  exact ⟨h.2.1, h.2.2.1⟩

end Chatbot

namespace Chatbot

/-- Searching a filtered list for a property that implies the filter finds the
same element as searching the unfiltered list. -/
theorem find_filter {α : Type} (p q : α → Bool) :
    ∀ l : List α, (∀ a, p a = true → q a = true) →
      (l.filter q).find? p = l.find? p := by
  intro l himp
  induction l with
  | nil => simp
  | cons a l ih =>
    cases hq : q a with
    | true =>
      rw [List.filter_cons_of_pos hq]
      cases hp : p a with
      | true => rw [List.find?_cons_of_pos _ hp, List.find?_cons_of_pos _ hp]
      | false =>
        rw [List.find?_cons_of_neg _ (by simp [hp]), List.find?_cons_of_neg _ (by simp [hp])]
        exact ih
    | false =>
      have hp : p a = false := by
        cases hpa : p a with
        | true => rw [himp a hpa] at hq; cases hq
        | false => rfl
      rw [List.filter_cons_of_neg (by simp [hq]), List.find?_cons_of_neg _ (by simp [hp])]
      exact ih

/-- A list with an element satisfying the predicate yields a successful find. -/
theorem exists_find_eq_some {α : Type} (p : α → Bool) :
    ∀ l : List α, (∃ x ∈ l, p x = true) → ∃ y, l.find? p = some y ∧ p y = true := by
  intro l
  induction l with
  | nil =>
    rintro ⟨x, hx, -⟩
    simp at hx
  | cons a l ih =>
    rintro ⟨x, hx, hpx⟩
    cases hpa : p a with
    | true => exact ⟨a, List.find?_cons_of_pos _ hpa, hpa⟩
    | false =>
      have hmem : ∃ x ∈ l, p x = true := by
        rcases List.mem_cons.mp hx with h | h
        · subst h; rw [hpa] at hpx; cases hpx
        · exact ⟨x, h, hpx⟩
      obtain ⟨y, hy, hpy⟩ := ih hmem
      exact ⟨y, by rw [List.find?_cons_of_neg _ (by simp [hpa])]; exact hy, hpy⟩

/-- A table preferred as the delivery-order table passes the order filter. -/
theorem delivPred_implies (t : Table) (h : delivPred t = true) : orderFilterPred t = true := by
  unfold delivPred at h
  rw [Bool.or_eq_true] at h
  unfold orderFilterPred
  rcases h with h | h
  · rw [beq_iff_eq] at h
    rw [h]
    decide
  · rw [beq_iff_eq] at h
    rw [h]
    decide

/-- A column named `created_at` satisfies the first candidate-name predicate. -/
theorem createdAt_datePred (c : Column) (h : c.name = ("created_at").data) :
    dateNamePred (("created_at").data) c = true := by
  unfold dateNamePred
  rw [h]
  decide

/-- A schema refuting C6 as stated: it contains a table literally named
`delivery_orders` with a `created_at` column, but a differently-cased
`Delivery_Orders` table without any date column precedes it, is preferred by
`detectOrderTable`, and makes the generator return `none`. -/
def cs6 : Schema :=
  ⟨[⟨("Delivery_Orders").data, 0, [⟨("x").data, ("integer").data⟩]⟩,
    ⟨("delivery_orders").data, 0, [⟨("created_at").data, ("timestamp").data⟩]⟩]⟩

/-- C6 counterexample: `cs6`'s tables include a table named `delivery_orders`
having a `created_at` column, yet `generateSmartGroupedByMonthSQL` returns
`none` instead of a grouped-by-month statement. -/
theorem c6_counterexample :
    (∃ t ∈ cs6.tables, t.name = ("delivery_orders").data ∧
      ∃ c ∈ t.columns, c.name = ("created_at").data) ∧
    generateSmartGroupedByMonthSQL (some cs6) = none := by
  refine ⟨by decide, by decide⟩

/-- C6 amended: whenever the first table selected by the delivery-order
preference (lowercased name `deliveryorders` or `delivery_orders`) has a
column named `created_at`, the generator detects a date column and returns the
grouped-by-month statement — `GROUP BY EXTRACT(YEAR FROM ...), EXTRACT(MONTH
FROM ...)` over the detected table and date column — without any call to the
text-generation service (the embedded generator is a pure function of the
schema). -/
theorem c6_grouped_by_month :
    ∀ (schema : Schema) (t : Table),
      schema.tables.find? delivPred = some t →
      (∃ c ∈ t.columns, c.name = ("created_at").data) →
      ∃ d, detectDateColumn t.columns = some d ∧
        generateSmartGroupedByMonthSQL (some schema) = some (monthSQLTemplate t.name d) := by
  intro schema t hfind hcol
  have hord : detectOrderTable (some schema) = some ⟨t.name, t.rowCount, t.columns⟩ := by
    simp only [detectOrderTable]
    rw [find_filter delivPred orderFilterPred schema.tables delivPred_implies, hfind]
  obtain ⟨c, hcmem, hcname⟩ := hcol
  have hex : ∃ x ∈ t.columns, dateNamePred (("created_at").data) x = true :=
    ⟨c, hcmem, createdAt_datePred c hcname⟩
  obtain ⟨y, hy, hpy⟩ := exists_find_eq_some _ t.columns hex
  have hlen : t.columns.length ≠ 0 := by
    intro h0
    rw [List.length_eq_zero] at h0
    rw [h0] at hcmem
    simp at hcmem
  have hdate : detectDateColumn t.columns = some y.name := by
    unfold detectDateColumn
    rw [if_neg hlen]
    simp only [dateColumnNames, findDateByName]
    rw [hy]
  refine ⟨y.name, hdate, ?_⟩
  simp [generateSmartGroupedByMonthSQL, hord, hdate]

/-- The witness table for C6. -/
def w6t : Table := ⟨("delivery_orders").data, 5, [⟨("created_at").data, ("timestamp").data⟩]⟩

/-- The witness schema for C6. -/
def w6 : Schema := ⟨[w6t]⟩

/-- C6 witness: the amended theorem applied to the Scenario A schema. -/
theorem c6_grouped_by_month_witness :
    w6.tables.find? delivPred = some w6t ∧
    (∃ d, detectDateColumn w6t.columns = some d ∧
      generateSmartGroupedByMonthSQL (some w6) = some (monthSQLTemplate w6t.name d)) :=
  ⟨by decide, c6_grouped_by_month w6 w6t (by decide) (by decide)⟩

end Chatbot

namespace Chatbot

set_option maxRecDepth 400000

/-- The failing schema for C7: a `delivery_orders` table with a status and a
revenue column but no date-named or date-typed column. -/
def cs7 : Schema :=
  ⟨[⟨("delivery_orders").data, 3,
     [⟨("status").data, ("text").data⟩, ⟨("grandtotal").data, ("numeric").data⟩]⟩]⟩

/-- The SQL the status template emits on `cs7`. -/
def c7sql : List Char := (generateOrdersByStatusSQL (some cs7) 2025 1).getD []

/-- The quoted identifier `"null"` produced by interpolating a JS `null`. -/
def nullIdent : List Char := dq :: (("null").data ++ [dq])

/-- C7: on a schema where the status template's date column is not detected,
`generateOrdersByStatusSQL` does not return null — it emits a statement that
interpolates the undetected date column as the quoted identifier `"null"`, a
name that belongs to no column of the snapshot. -/
theorem c7_status_template_null_column :
    generateOrdersByStatusSQL (some cs7) 2025 1 = some c7sql ∧
    detectDateColumn (⟨("delivery_orders").data, 3,
      [⟨("status").data, ("text").data⟩, ⟨("grandtotal").data, ("numeric").data⟩]⟩ :
        Table).columns = none ∧
    containsSub nullIdent c7sql = true ∧
    (∀ t ∈ cs7.tables, ∀ col ∈ t.columns, col.name ≠ ("null").data) := by
  refine ⟨by decide, by decide, by decide, by decide⟩

/-- C8: when introspecting one table fails, the snapshot is still produced
with one entry per catalog table, the failed table carries an error marker and
an empty column list, and `totalTables` equals the full catalog count. -/
theorem c8_snapshot_resilient :
    ∀ (catalog : List (List Char)) (introspect : List Char → Except (List Char) TableIntro)
      (nm msg : List Char), nm ∈ catalog → introspect nm = Except.error msg →
      (getCompleteSchema catalog introspect).totalTables = catalog.length ∧
      (getCompleteSchema catalog introspect).tables.length = catalog.length ∧
      (∃ e ∈ (getCompleteSchema catalog introspect).tables,
        e.name = nm ∧ e.error = some msg ∧ e.columns = []) ∧
      (∀ n ∈ catalog, ∃ e ∈ (getCompleteSchema catalog introspect).tables, e.name = n) := by
  intro catalog introspect nm msg hmem herr
  have hne : catalog.length ≠ 0 := by
    intro h0
    rw [List.length_eq_zero] at h0
    rw [h0] at hmem
    simp at hmem
  unfold getCompleteSchema
  rw [if_neg hne]
  refine ⟨rfl, by simp, ?_, ?_⟩
  · exact ⟨introspectEntry introspect nm, List.mem_map_of_mem _ hmem,
      by simp [introspectEntry, herr]⟩
  · intro n hn
    refine ⟨introspectEntry introspect n, List.mem_map_of_mem _ hn, ?_⟩
    unfold introspectEntry
    cases introspect n <;> rfl

/-- The witness catalog for C8. -/
def catalog0 : List (List Char) := [("orders").data, ("secrets").data]

/-- The witness introspection for C8: one table fails with a permission error. -/
def introspect0 : List Char → Except (List Char) TableIntro := fun nm =>
  if nm = ("secrets").data then Except.error (("permission denied").data)
  else Except.ok ⟨3, [⟨("id").data, ("integer").data⟩]⟩

/-- C8 witness: the theorem applied to the concrete catalog. -/
theorem c8_snapshot_resilient_witness :
    (getCompleteSchema catalog0 introspect0).totalTables = catalog0.length ∧
    (∃ e ∈ (getCompleteSchema catalog0 introspect0).tables,
      e.name = ("secrets").data ∧
      e.error = some (("permission denied").data) ∧ e.columns = []) := by
  have h := c8_snapshot_resilient catalog0 introspect0 (("secrets").data)
    (("permission denied").data) (by decide) rfl
  exact ⟨h.1, h.2.2.1⟩

/-- The retry loop propagates a non-retryable error at the attempt where it
occurs, provided every earlier attempt failed with a retryable error. -/
theorem retryGo_nonretryable :
    ∀ (rem k0 k : Nat) (attempt : Nat → Except JsError Nat) (e : JsError),
      k - k0 < rem → k0 ≤ k →
      (∀ j, k0 ≤ j → j < k → ∃ e2, attempt j = Except.error e2 ∧ isRetryable e2 = true) →
      attempt k = Except.error e → isRetryable e = false →
      retryGo attempt k0 rem = (Except.error e, k) := by
  intro rem
  induction rem with
  | zero =>
    intro k0 k attempt e hlt
    omega
  | succ rem ih =>
    intro k0 k attempt e hlt hle hprev hk hnr
    by_cases heq : k0 = k
    · subst heq
      simp [retryGo, hk, hnr]
    · have hlt2 : k0 < k := Nat.lt_of_le_of_ne hle heq
      obtain ⟨e2, he2, hr2⟩ := hprev k0 (le_refl _) hlt2
      have hrem : rem ≠ 0 := by omega
      have hrec := ih (k0 + 1) k attempt e (by omega) (by omega)
        (fun j hj1 hj2 => hprev j (by omega) hj2) hk hnr
      simp [retryGo, he2, hr2, hrem, hrec]

/-- Every attempt strictly before the final one failed with a retryable error. -/
theorem retryGo_used_retryable :
    ∀ (rem k0 k : Nat) (attempt : Nat → Except JsError Nat),
      k0 ≤ k → k < (retryGo attempt k0 rem).2 →
      ∃ e, attempt k = Except.error e ∧ isRetryable e = true := by
  intro rem
  induction rem with
  | zero =>
    intro k0 k attempt hle hlt
    simp [retryGo] at hlt
  | succ rem ih =>
    intro k0 k attempt hle hlt
    cases ha : attempt k0 with
    | ok v =>
      simp [retryGo, ha] at hlt
      omega
    | error e =>
      cases hr : isRetryable e with
      | false =>
        simp [retryGo, ha, hr] at hlt
        omega
      | true =>
        by_cases hrem : rem = 0
        · subst hrem
          simp [retryGo, ha, hr] at hlt
          omega
        · simp only [retryGo, ha, hr, if_true, hrem, if_false] at hlt
          by_cases heq : k = k0
          · subst heq
            exact ⟨e, ha, hr⟩
          · exact ih (k0 + 1) k attempt (by omega) hlt

/-- C9: `executeWithRetry` propagates a non-retryable error immediately at the
attempt where it occurs (no further attempts), every attempt it re-tries after
failed with a transient network error, and the inter-attempt backoff delay
never exceeds the 10000 ms cap. -/
theorem c9_retry_policy :
    (∀ (attempt : Nat → Except JsError Nat) (maxRetries k : Nat) (e : JsError),
      1 ≤ k → k ≤ maxRetries →
      (∀ j, 1 ≤ j → j < k → ∃ e2, attempt j = Except.error e2 ∧ isRetryable e2 = true) →
      attempt k = Except.error e → isRetryable e = false →
      executeWithRetry attempt maxRetries = (Except.error e, k)) ∧
    (∀ (attempt : Nat → Except JsError Nat) (maxRetries k : Nat),
      1 ≤ k → k < (executeWithRetry attempt maxRetries).2 →
      ∃ e, attempt k = Except.error e ∧ isRetryable e = true) ∧
    (∀ retryDelay attemptNum jitter : Nat,
      backoffDelay retryDelay attemptNum jitter ≤ 10000) := by
  refine ⟨?_, ?_, ?_⟩
  · intro attempt maxR k e h1 h2 hprev hk hnr
    exact retryGo_nonretryable maxR 1 k attempt e (by omega) h1 hprev hk hnr
  · intro attempt maxR k h1 hlt
    exact retryGo_used_retryable maxR 1 k attempt h1 hlt
  · intro rd an j
    exact Nat.min_le_right _ _

/-- A transient connection-reset failure. -/
def jsErrReset : JsError := ⟨some (("ECONNRESET").data), ("read ECONNRESET").data⟩

/-- A non-retryable SQL syntax error. -/
def jsErrQuery : JsError := ⟨some (("42601").data), ("syntax error at or near FROM").data⟩

/-- A run whose first attempt fails transiently and whose second fails with a
syntax error. -/
def attempt0 : Nat → Except JsError Nat := fun k =>
  if k = 1 then Except.error jsErrReset
  else if k = 2 then Except.error jsErrQuery
  else Except.ok 0

/-- C9 witness: with three allowed attempts, the run stops at attempt 2 and
propagates the syntax error. -/
theorem c9_retry_policy_witness :
    executeWithRetry attempt0 3 = (Except.error jsErrQuery, 2) := by
  refine c9_retry_policy.1 attempt0 3 2 jsErrQuery (by decide) (by decide) ?_ rfl (by decide)
  intro j hj1 hj2
  have hj : j = 1 := Nat.le_antisymm (Nat.lt_succ_iff.mp hj2) hj1
  subst hj
  exact ⟨jsErrReset, rfl, by decide⟩

/-- The truncated chart name never exceeds 30 characters. -/
theorem truncName_length (nm : List Char) : (truncName nm).length ≤ 30 := by
  unfold truncName
  by_cases h : nm.length > 30
  · have h3 : (("...").data).length = 3 := rfl
    rw [if_pos h, List.length_append, List.length_take, h3]
    omega
  · rw [if_neg h]
    omega

/-- C10: every produced chart tuple carries the absolute value of a numeric
cell, a tuple is only produced when the computed value is a number (never for
NaN), and names are truncated to at most 30 characters — over 30 characters
they become the first 27 plus three dots. -/
theorem c10_chart_rows :
    ∀ (parseF parseI : List Char → Option Int) (nameVal : Option (List Char)) (idx : Nat),
      (∀ (x : Int) (r : ChartRow),
        mkChartRow parseF parseI nameVal idx (CellVal.num x) = some r → r.value = |x|) ∧
      (∀ (raw : CellVal) (r : ChartRow),
        mkChartRow parseF parseI nameVal idx raw = some r →
          jsToValue parseF parseI raw ≠ none) ∧
      (∀ (raw : CellVal) (r : ChartRow),
        mkChartRow parseF parseI nameVal idx raw = some r →
          r.name = truncName (deriveName nameVal idx) ∧ r.name.length ≤ 30 ∧
          ((deriveName nameVal idx).length > 30 →
            r.name = (deriveName nameVal idx).take 27 ++ ("...").data)) := by
  intro parseF parseI nameVal idx
  refine ⟨?_, ?_, ?_⟩
  · intro x r h
    simp only [mkChartRow, jsToValue] at h
    split_ifs at h with hn
    injection h with h2
    subst h2
    rfl
  · intro raw r h hnone
    rw [mkChartRow, hnone] at h
    simp at h
  · intro raw r h
    simp only [mkChartRow] at h
    cases hv : jsToValue parseF parseI raw with
    | none =>
      rw [hv] at h
      simp at h
    | some v =>
      rw [hv] at h
      simp only at h
      split_ifs at h with hn
      injection h with h2
      subst h2
      refine ⟨rfl, truncName_length _, ?_⟩
      intro hlong
      show truncName (deriveName nameVal idx) = _
      unfold truncName
      rw [if_pos hlong]

/-- A parser that always yields NaN, for the C10 witness. -/
def pzero : List Char → Option Int := fun _ => none

/-- The chart row produced from a numeric cell holding -7. -/
def c10row : ChartRow := ⟨("Total").data, 7⟩

/-- C10 witness: a negative aggregate of -7 renders as its magnitude 7. -/
theorem c10_chart_rows_witness :
    mkChartRow pzero pzero (some (("Total").data)) 0 (CellVal.num (-7)) = some c10row ∧
    c10row.value = |(-7 : Int)| :=
  ⟨by decide,
   (c10_chart_rows pzero pzero (some (("Total").data)) 0).1 (-7) c10row (by decide)⟩

end Chatbot
